import Mathlib

/-!
Verification of `ion_functions/data/vel_functions.py` (magnetic-declination
correction of horizontal water-velocity measurements).

Shallow embedding conventions:

* A latitude/longitude argument may be a Python scalar or a numpy array
  (`isinstance(lat, np.ndarray)` distinguishes them), so it is modelled by
  `Coord`, a scalar-or-array of floating-point values.  A floating-point
  value is modelled as `Option ℚ`: `some q` is an ordinary (finite) number,
  `none` is NaN.  Every IEEE comparison against NaN is false, which the
  comparison helpers below reproduce; that is the only floating-point
  behaviour the code under study depends on.
* A velocity argument (`u`, `v`) is a scalar or array of reals, `NArr`.
* Exceptions raised by the numpy layer are modelled with `Except PyErr`:
  `np.ones(u.shape)` on a Python scalar raises `AttributeError` (no `.shape`
  attribute), and `np.vectorize` over arrays of different lengths raises
  `ValueError`.
* The module imports `magnetic_declination` and `magnetic_correction` from
  `ion_functions.data.generic_functions`, a file that is not part of the
  sources under study; those two are modelled from the spec (see their doc
  comments) and every theorem depending on them is parametric in the
  underlying declination provider.
-/

/-- A floating-point scalar: `some q` is a finite number, `none` is NaN. -/
def FpVal : Type := Option ℚ

instance : DecidableEq FpVal := by
  unfold FpVal
  infer_instance

/-- IEEE-style `x > c`: false when `x` is NaN. -/
def fpGt (x : FpVal) (c : ℚ) : Bool :=
  match x with
  | some q => decide (q > c)
  | none => false

/-- IEEE-style `x < c`: false when `x` is NaN. -/
def fpLt (x : FpVal) (c : ℚ) : Bool :=
  match x with
  | some q => decide (q < c)
  | none => false

/-- IEEE-style `c <= x`: false when `x` is NaN. -/
def fpGe (x : FpVal) (c : ℚ) : Bool :=
  match x with
  | some q => decide (c ≤ q)
  | none => false

/-- IEEE-style `x <= c`: false when `x` is NaN. -/
def fpLe (x : FpVal) (c : ℚ) : Bool :=
  match x with
  | some q => decide (q ≤ c)
  | none => false

/-- A latitude or longitude argument: Python scalar or numpy array. -/
inductive Coord : Type
  | scalar (x : FpVal)
  | array (xs : List FpVal)

/-- `valid_lat` from `vel_functions.py` lines 15-24: on an ndarray it is
false iff some element compares `> 90` or `< -90`; on a scalar it is
`-90 <= lat and lat <= 90`. -/
def valid_lat : Coord → Bool
  | .array xs => if xs.any (fun x => fpGt x 90) || xs.any (fun x => fpLt x (-90)) then false else true
  | .scalar x => fpGe x (-90) && fpLe x 90

/-- `valid_lon` from `vel_functions.py` lines 27-36: on an ndarray it is
false iff some element compares `> 180` or `< -180`; on a scalar it is
`-180 <= lon and lon <= 180`. -/
def valid_lon : Coord → Bool
  | .array xs => if xs.any (fun x => fpGt x 180) || xs.any (fun x => fpLt x (-180)) then false else true
  | .scalar x => fpGe x (-180) && fpLe x 180

/-- Spec-side predicate: the value is an ordinary number lying outside
`[lo, hi]` (NaN is unordered, hence neither inside nor outside). -/
def fpOutside (lo hi : ℚ) (x : FpVal) : Bool :=
  fpGt x hi || fpLt x lo

/-- Spec-side predicate: the value is an ordinary number lying within
`[lo, hi]` (false for NaN). -/
def fpWithin (lo hi : ℚ) (x : FpVal) : Bool :=
  fpGe x lo && fpLe x hi

/-- Spec-side: some element of the latitude input lies outside `[-90, 90]`. -/
def latOutside : Coord → Bool
  | .scalar x => fpOutside (-90) 90 x
  | .array xs => xs.any (fpOutside (-90) 90)

/-- Spec-side: some element of the longitude input lies outside `[-180, 180]`. -/
def lonOutside : Coord → Bool
  | .scalar x => fpOutside (-180) 180 x
  | .array xs => xs.any (fpOutside (-180) 180)

/-- Spec-side: every element of the latitude input lies within `[-90, 90]`. -/
def latAllWithin : Coord → Bool
  | .scalar x => fpWithin (-90) 90 x
  | .array xs => xs.all (fpWithin (-90) 90)

/-- Spec-side: every element of the longitude input lies within `[-180, 180]`. -/
def lonAllWithin : Coord → Bool
  | .scalar x => fpWithin (-180) 180 x
  | .array xs => xs.all (fpWithin (-180) 180)

/-- Spec-side: no element of the input is NaN. -/
def noNaN : Coord → Bool
  | .scalar x => x.isSome
  | .array xs => xs.all Option.isSome

theorem latOutside_valid_lat_false (lat : Coord) (h : latOutside lat = true) :
    valid_lat lat = false := by
  cases lat with
  | scalar x =>
    cases x with
    | none => simp [latOutside, fpOutside, fpGt, fpLt] at h
    | some q =>
      simp [latOutside, fpOutside, fpGt, fpLt] at h
      simp [valid_lat, fpGe, fpLe]
      intro h2
      rcases h with h | h
      · linarith
      · linarith
  | array xs =>
    simp only [latOutside] at h
    rcases List.any_eq_true.mp h with ⟨x, hx, hout⟩
    have hout2 : fpGt x 90 = true ∨ fpLt x (-90) = true := by
      simpa [fpOutside] using hout
    have hc : ((xs.any fun x => fpGt x 90) || (xs.any fun x => fpLt x (-90))) = true := by
      simp only [Bool.or_eq_true]
      rcases hout2 with h1 | h1
      · exact Or.inl (List.any_eq_true.mpr ⟨x, hx, h1⟩)
      · exact Or.inr (List.any_eq_true.mpr ⟨x, hx, h1⟩)
    simp [valid_lat, hc]

theorem lonOutside_valid_lon_false (lon : Coord) (h : lonOutside lon = true) :
    valid_lon lon = false := by
  cases lon with
  | scalar x =>
    cases x with
    | none => simp [lonOutside, fpOutside, fpGt, fpLt] at h
    | some q =>
      simp [lonOutside, fpOutside, fpGt, fpLt] at h
      simp [valid_lon, fpGe, fpLe]
      intro h2
      rcases h with h | h
      · linarith
      · linarith
  | array xs =>
    simp only [lonOutside] at h
    rcases List.any_eq_true.mp h with ⟨x, hx, hout⟩
    have hout2 : fpGt x 180 = true ∨ fpLt x (-180) = true := by
      simpa [fpOutside] using hout
    have hc : ((xs.any fun x => fpGt x 180) || (xs.any fun x => fpLt x (-180))) = true := by
      simp only [Bool.or_eq_true]
      rcases hout2 with h1 | h1
      · exact Or.inl (List.any_eq_true.mpr ⟨x, hx, h1⟩)
      · exact Or.inr (List.any_eq_true.mpr ⟨x, hx, h1⟩)
    simp [valid_lon, hc]

/-- A velocity argument: Python scalar or numpy array of real numbers. -/
inductive NArr : Type
  | scalar (x : ℝ)
  | array (xs : List ℝ)

/-- Exceptions the numpy layer can raise in the code under study:
`AttributeError` from `u.shape` on a Python scalar, `ValueError` from
`np.vectorize` on arrays of incompatible lengths. -/
inductive PyErr : Type
  | attributeError
  | valueError

/-- `u.shape`: `none` for a Python scalar (which has no shape and raises
`AttributeError` when it is accessed), `some n` for a 1-d array. -/
def shape : NArr → Option ℕ
  | .scalar _ => none
  | .array xs => some xs.length

/-- Element-wise map over a scalar-or-array. -/
def nmap (f : ℝ → ℝ) : NArr → NArr
  | .scalar x => .scalar (f x)
  | .array xs => .array (xs.map f)

/-- Element-wise scaling `c * a` of a scalar-or-array. -/
noncomputable def scaleN (c : ℝ) (a : NArr) : NArr :=
  nmap (fun x => c * x) a

/-- Element-wise division `a / c`, as in `ne.evaluate('u_cor / 100.')`. -/
noncomputable def divN (a : NArr) (c : ℝ) : NArr :=
  nmap (fun x => x / c) a

/-- Element-wise multiplication `a * c` by a unit factor. -/
noncomputable def mulN (a : NArr) (c : ℝ) : NArr :=
  nmap (fun x => x * c) a

/-- The declination provider (the World Magnetic Model evaluation), the
external collaborator: latitude, longitude, signed vertical offset,
NTP timestamp, yielding the declination angle theta. -/
def Provider : Type :=
  Coord → Coord → ℝ → ℝ → ℝ

/-- Modelled from the spec: `magnetic_declination` lives in
`ion_functions.data.generic_functions`, which is not among the sources under
study.  Per the spec (section 3 "Vertical offset", section 4.2, and the
`vel_mag_correction` docstring: `zflag` selects depth `-z` or height `+z`),
it queries the provider at the effective signed vertical coordinate
`zflag * z`. -/
noncomputable def magnetic_declination (p : Provider) (lat lon : Coord) (ntp_timestamp z zflag : ℝ) : ℝ :=
  p lat lon (zflag * z) ntp_timestamp

/-- Modelled from the spec: `magnetic_correction` lives in
`ion_functions.data.generic_functions`, which is not among the sources under
study.  Per spec section 4.3 it is the standard planar rotation taking
magnetic-frame components to true-frame components (true heading = magnetic
heading + declination), applied to one `(u, v)` pair; theta is taken in
radians. -/
noncomputable def magnetic_correction (theta u v : ℝ) : ℝ × ℝ :=
  (u * Real.cos theta + v * Real.sin theta,
   -u * Real.sin theta + v * Real.cos theta)

/-- `np.vectorize(magnetic_correction)` applied to a scalar angle and
scalar-or-array velocity components: numpy broadcasts a scalar against an
array and zips equal-length arrays; arrays of different lengths raise
`ValueError`. -/
noncomputable def magvar (theta : ℝ) : NArr → NArr → Except PyErr (NArr × NArr)
  | .scalar a, .scalar b =>
    .ok (.scalar (magnetic_correction theta a b).1, .scalar (magnetic_correction theta a b).2)
  | .scalar a, .array bs =>
    .ok (.array (bs.map (fun b => (magnetic_correction theta a b).1)),
         .array (bs.map (fun b => (magnetic_correction theta a b).2)))
  | .array as, .scalar b =>
    .ok (.array (as.map (fun a => (magnetic_correction theta a b).1)),
         .array (as.map (fun a => (magnetic_correction theta a b).2)))
  | .array as, .array bs =>
    if as.length = bs.length then
      .ok (.array (List.zipWith (fun a b => (magnetic_correction theta a b).1) as bs),
           .array (List.zipWith (fun a b => (magnetic_correction theta a b).2) as bs))
    else
      .error .valueError

/-- `vel_mag_correction` from `vel_functions.py` lines 364-433: retrieve the
magnetic declination, then apply the magnetic-declination correction
element-wise via `np.vectorize(magnetic_correction)`.  The Python defaults
are `z=0.0`, `zflag=-1`. -/
noncomputable def vel_mag_correction (p : Provider) (u v : NArr) (lat lon : Coord)
    (ntp_timestamp : ℝ) (z : ℝ := 0) (zflag : ℝ := -1) : Except PyErr (NArr × NArr) :=
  magvar (magnetic_declination p lat lon ntp_timestamp z zflag) u v

/-- `np.ones(u.shape, dtype=np.float) * -9999`: the fill-value array shaped
like `u`.  On a Python scalar `u` the attribute access `u.shape` raises
`AttributeError`. -/
def fillLike : NArr → Except PyErr NArr
  | .scalar _ => .error .attributeError
  | .array xs => .ok (.array (List.replicate xs.length (-9999)))

/-- `nobska_mag_corr_east` from `vel_functions.py` lines 40-91: fill value on
invalid position, else east component of `vel_mag_correction` divided by 100
(cm/s to m/s). -/
noncomputable def nobska_mag_corr_east (p : Provider) (u v : NArr) (lat lon : Coord)
    (timestamp : ℝ) (z : ℝ := 0) : Except PyErr NArr :=
  if !valid_lat lat || !valid_lon lon then
    fillLike u
  else
    match vel_mag_correction p u v lat lon timestamp z with
    | .error e => .error e
    | .ok r => .ok (divN r.1 100)

/-- `nobska_mag_corr_north` from `vel_functions.py` lines 94-145: fill value
on invalid position, else north component of `vel_mag_correction` divided by
100 (cm/s to m/s). -/
noncomputable def nobska_mag_corr_north (p : Provider) (u v : NArr) (lat lon : Coord)
    (timestamp : ℝ) (z : ℝ := 0) : Except PyErr NArr :=
  if !valid_lat lat || !valid_lon lon then
    fillLike u
  else
    match vel_mag_correction p u v lat lon timestamp z with
    | .error e => .error e
    | .ok r => .ok (divN r.2 100)

/-- `nortek_mag_corr_east` from `vel_functions.py` lines 150-202: fill value
on invalid position, else east component of `vel_mag_correction`, no unit
conversion. -/
noncomputable def nortek_mag_corr_east (p : Provider) (u v : NArr) (lat lon : Coord)
    (timestamp : ℝ) (z : ℝ := 0) : Except PyErr NArr :=
  if !valid_lat lat || !valid_lon lon then
    fillLike u
  else
    match vel_mag_correction p u v lat lon timestamp z with
    | .error e => .error e
    | .ok r => .ok r.1

/-- `nortek_mag_corr_north` from `vel_functions.py` lines 205-257: fill value
on invalid position, else north component of `vel_mag_correction`, no unit
conversion. -/
noncomputable def nortek_mag_corr_north (p : Provider) (u v : NArr) (lat lon : Coord)
    (timestamp : ℝ) (z : ℝ := 0) : Except PyErr NArr :=
  if !valid_lat lat || !valid_lon lon then
    fillLike u
  else
    match vel_mag_correction p u v lat lon timestamp z with
    | .error e => .error e
    | .ok r => .ok r.2

theorem array_check_iff_within (lo hi : ℚ) (xs : List FpVal)
    (hnn : xs.all Option.isSome = true) :
    ((if xs.any (fun x => fpGt x hi) || xs.any (fun x => fpLt x lo) then false else true) = true)
      ↔ xs.all (fpWithin lo hi) = true := by
  constructor
  · intro h
    by_cases hc : (xs.any (fun x => fpGt x hi) || xs.any (fun x => fpLt x lo)) = true
    · simp [hc] at h
    · simp only [Bool.or_eq_true, not_or] at hc
      rw [List.all_eq_true]
      intro x hx
      have hs := List.all_eq_true.mp hnn x hx
      obtain ⟨q, rfl⟩ := Option.isSome_iff_exists.mp hs
      have h1 : ¬ (fpGt (some q) hi = true) := fun hq => hc.1 (List.any_eq_true.mpr ⟨_, hx, hq⟩)
      have h2 : ¬ (fpLt (some q) lo = true) := fun hq => hc.2 (List.any_eq_true.mpr ⟨_, hx, hq⟩)
      simp [fpGt] at h1
      simp [fpLt] at h2
      simp [fpWithin, fpGe, fpLe]
      exact ⟨h2, h1⟩
  · intro h
    have hc : (xs.any (fun x => fpGt x hi) || xs.any (fun x => fpLt x lo)) = false := by
      simp only [Bool.or_eq_false_iff]
      constructor
      · rw [List.any_eq_false]
        intro x hx hq
        have hw := List.all_eq_true.mp h x hx
        cases x with
        | none => simp [fpGt] at hq
        | some q =>
          simp [fpWithin, fpGe, fpLe] at hw
          simp [fpGt] at hq
          linarith [hw.2]
      · rw [List.any_eq_false]
        intro x hx hq
        have hw := List.all_eq_true.mp h x hx
        cases x with
        | none => simp [fpLt] at hq
        | some q =>
          simp [fpWithin, fpGe, fpLe] at hw
          simp [fpLt] at hq
          linarith [hw.1]
    simp [hc]

/-- C8: array-path validation uses only the strict comparisons `> upper` and
`< lower`, so an ndarray containing NaN is reported valid while a scalar NaN
is reported invalid: array and scalar validation disagree on NaN. -/
theorem validators_nan_asymmetry :
    (∀ xs : List FpVal, valid_lat (.array xs)
        = !(xs.any (fun x => fpGt x 90) || xs.any (fun x => fpLt x (-90))))
    ∧ (∀ xs : List FpVal, valid_lon (.array xs)
        = !(xs.any (fun x => fpGt x 180) || xs.any (fun x => fpLt x (-180))))
    ∧ valid_lat (.array [none]) = true
    ∧ valid_lat (.scalar none) = false
    ∧ valid_lon (.array [none]) = true
    ∧ valid_lon (.scalar none) = false := by
  refine ⟨fun xs => ?ha, fun xs => ?hb, by decide, by decide, by decide, by decide⟩
  · by_cases hc : (xs.any (fun x => fpGt x 90) || xs.any (fun x => fpLt x (-90))) = true
    · simp [valid_lat, hc]
    · simp only [Bool.not_eq_true] at hc
      simp [valid_lat, hc]
  · by_cases hc : (xs.any (fun x => fpGt x 180) || xs.any (fun x => fpLt x (-180))) = true
    · simp [valid_lon, hc]
    · simp only [Bool.not_eq_true] at hc
      simp [valid_lon, hc]

/-- C2, counterexample: on the one-element ndarray whose element is NaN,
`valid_lat` returns true although the element does not lie within
`[-90, 90]`, so the claimed equivalence fails as stated. -/
theorem valid_lat_iff_within_cex :
    ¬ (valid_lat (.array [none]) = true ↔ latAllWithin (.array [none]) = true) := by
  decide

/-- C2, amended: for NaN-free inputs, `valid_lat` is true iff every element
lies within `[-90, 90]` and `valid_lon` is true iff every element lies
within `[-180, 180]`; neither raises an error (both are total functions by
construction); and a single out-of-range element makes the whole input
invalid (no NaN-freeness needed for that direction). -/
theorem valid_lat_lon_iff_within (c : Coord) :
    (noNaN c = true →
      (valid_lat c = true ↔ latAllWithin c = true)
      ∧ (valid_lon c = true ↔ lonAllWithin c = true))
    ∧ (latOutside c = true → valid_lat c = false)
    ∧ (lonOutside c = true → valid_lon c = false) := by
  refine ⟨fun hnn => ⟨?h1, ?h2⟩, latOutside_valid_lat_false c, lonOutside_valid_lon_false c⟩
  · cases c with
    | scalar x =>
      obtain ⟨q, rfl⟩ := Option.isSome_iff_exists.mp hnn
      exact Iff.rfl
    | array xs =>
      exact array_check_iff_within (-90) 90 xs hnn
  · cases c with
    | scalar x =>
      obtain ⟨q, rfl⟩ := Option.isSome_iff_exists.mp hnn
      exact Iff.rfl
    | array xs =>
      exact array_check_iff_within (-180) 180 xs hnn

/-- Witness for `valid_lat_lon_iff_within` at a concrete NaN-free array. -/
theorem valid_lat_lon_iff_within_witness :
    valid_lat (.array [some 10, some (-45)]) = true
      ↔ latAllWithin (.array [some 10, some (-45)]) = true :=
  ((valid_lat_lon_iff_within (.array [some 10, some (-45)])).1 (by decide)).1

theorem invalid_cond_of_outside (lat lon : Coord)
    (h : latOutside lat = true ∨ lonOutside lon = true) :
    (!valid_lat lat || !valid_lon lon) = true := by
  rcases h with h | h
  · simp [latOutside_valid_lat_false lat h]
  · simp [lonOutside_valid_lon_false lon h]

theorem invalid_cond_of_invalid (lat lon : Coord)
    (h : valid_lat lat = false ∨ valid_lon lon = false) :
    (!valid_lat lat || !valid_lon lon) = true := by
  rcases h with h | h
  · simp [h]
  · simp [h]

/-- C1: whenever some latitude element lies outside `[-90, 90]` or some
longitude element lies outside `[-180, 180]`, each of the four instrument
adapters returns the array filled with the sentinel `-9999`, shaped like the
input velocity array `u`, for every declination provider and regardless of
`v`, the other coordinate, the timestamp and `z` (in particular the
orchestrator and the provider are never consulted: the result is a constant
independent of them). -/
theorem adapters_fill_on_invalid_position (p : Provider) (us : List ℝ) (v : NArr)
    (lat lon : Coord) (ts z : ℝ)
    (h : latOutside lat = true ∨ lonOutside lon = true) :
    nobska_mag_corr_east p (.array us) v lat lon ts z
        = .ok (.array (List.replicate us.length (-9999)))
    ∧ nobska_mag_corr_north p (.array us) v lat lon ts z
        = .ok (.array (List.replicate us.length (-9999)))
    ∧ nortek_mag_corr_east p (.array us) v lat lon ts z
        = .ok (.array (List.replicate us.length (-9999)))
    ∧ nortek_mag_corr_north p (.array us) v lat lon ts z
        = .ok (.array (List.replicate us.length (-9999))) := by
  have hc := invalid_cond_of_outside lat lon h
  refine ⟨?h1, ?h2, ?h3, ?h4⟩
  · simp [nobska_mag_corr_east, hc, fillLike]
  · simp [nobska_mag_corr_north, hc, fillLike]
  · simp [nortek_mag_corr_east, hc, fillLike]
  · simp [nortek_mag_corr_north, hc, fillLike]

/-- Witness for `adapters_fill_on_invalid_position`: latitude 91 with a
two-element velocity array. -/
theorem adapters_fill_on_invalid_position_witness :
    nobska_mag_corr_east (fun _ _ _ _ => 0) (.array [3, 4]) (.scalar 0)
        (.scalar (some 91)) (.scalar (some 0)) 0 0
      = .ok (.array (List.replicate 2 (-9999)))
    ∧ nortek_mag_corr_north (fun _ _ _ _ => 0) (.array [3, 4]) (.scalar 0)
        (.scalar (some 91)) (.scalar (some 0)) 0 0
      = .ok (.array (List.replicate 2 (-9999))) := by
  have h := adapters_fill_on_invalid_position (fun _ _ _ _ => 0) [3, 4] (.scalar 0)
    (.scalar (some 91)) (.scalar (some 0)) 0 0 (Or.inl (by decide))
  exact ⟨h.1, h.2.2.2⟩

/-- C9: the invalid-position branch builds `np.ones(u.shape) * -9999`, so it
needs `u` to be array-shaped: with an invalid position every adapter raises
`AttributeError` on a scalar `u`, while it returns the fill array on an
array `u`. -/
theorem adapters_scalar_fill_attribute_error (p : Provider) (x : ℝ) (v : NArr)
    (lat lon : Coord) (ts z : ℝ)
    (h : valid_lat lat = false ∨ valid_lon lon = false) :
    nobska_mag_corr_east p (.scalar x) v lat lon ts z = .error .attributeError
    ∧ nobska_mag_corr_north p (.scalar x) v lat lon ts z = .error .attributeError
    ∧ nortek_mag_corr_east p (.scalar x) v lat lon ts z = .error .attributeError
    ∧ nortek_mag_corr_north p (.scalar x) v lat lon ts z = .error .attributeError
    ∧ (∀ us : List ℝ, nobska_mag_corr_east p (.array us) v lat lon ts z
        = .ok (.array (List.replicate us.length (-9999)))) := by
  have hc := invalid_cond_of_invalid lat lon h
  refine ⟨?h1, ?h2, ?h3, ?h4, fun us => ?h5⟩
  · simp [nobska_mag_corr_east, hc, fillLike]
  · simp [nobska_mag_corr_north, hc, fillLike]
  · simp [nortek_mag_corr_east, hc, fillLike]
  · simp [nortek_mag_corr_north, hc, fillLike]
  · simp [nobska_mag_corr_east, hc, fillLike]

/-- Witness for `adapters_scalar_fill_attribute_error`: scalar `u` with
longitude -181. -/
theorem adapters_scalar_fill_attribute_error_witness :
    nobska_mag_corr_east (fun _ _ _ _ => 0) (.scalar 5) (.scalar 0)
        (.scalar (some 45)) (.scalar (some (-181))) 0 0
      = .error .attributeError :=
  (adapters_scalar_fill_attribute_error (fun _ _ _ _ => 0) 5 (.scalar 0)
    (.scalar (some 45)) (.scalar (some (-181))) 0 0 (Or.inr (by decide))).1

theorem divN_hundred_eq_mulN (a : NArr) : divN a 100 = mulN a (1 / 100) := by
  cases a <;> simp [divN, mulN, nmap, div_eq_mul_inv, one_div]

theorem mulN_one (a : NArr) : mulN a 1 = a := by
  cases a <;> simp [mulN, nmap]

theorem valid_cond_false (lat lon : Coord)
    (h1 : valid_lat lat = true) (h2 : valid_lon lon = true) :
    (!valid_lat lat || !valid_lon lon) = false := by
  simp [h1, h2]

/-- C3: for valid latitude and longitude, each adapter's output is the
corresponding component of `vel_mag_correction` (east for the `_east`
adapters, north for the `_north` adapters) multiplied by the family's unit
factor: `1/100` for the Nobska (cm/s) adapters, `1` for the Nortek (m/s)
adapters. -/
theorem adapters_component_unit_factor (p : Provider) (u v : NArr)
    (lat lon : Coord) (ts z : ℝ)
    (h1 : valid_lat lat = true) (h2 : valid_lon lon = true) :
    nobska_mag_corr_east p u v lat lon ts z
        = Except.map (fun r => mulN r.1 (1 / 100)) (vel_mag_correction p u v lat lon ts z)
    ∧ nobska_mag_corr_north p u v lat lon ts z
        = Except.map (fun r => mulN r.2 (1 / 100)) (vel_mag_correction p u v lat lon ts z)
    ∧ nortek_mag_corr_east p u v lat lon ts z
        = Except.map (fun r => mulN r.1 1) (vel_mag_correction p u v lat lon ts z)
    ∧ nortek_mag_corr_north p u v lat lon ts z
        = Except.map (fun r => mulN r.2 1) (vel_mag_correction p u v lat lon ts z) := by
  have hc := valid_cond_false lat lon h1 h2
  cases hvm : vel_mag_correction p u v lat lon ts z with
  | error e =>
    exact ⟨by simp [nobska_mag_corr_east, hc, hvm, Except.map],
      by simp [nobska_mag_corr_north, hc, hvm, Except.map],
      by simp [nortek_mag_corr_east, hc, hvm, Except.map],
      by simp [nortek_mag_corr_north, hc, hvm, Except.map]⟩
  | ok r =>
    exact ⟨by simp [nobska_mag_corr_east, hc, hvm, Except.map, divN_hundred_eq_mulN],
      by simp [nobska_mag_corr_north, hc, hvm, Except.map, divN_hundred_eq_mulN],
      by simp [nortek_mag_corr_east, hc, hvm, Except.map, mulN_one],
      by simp [nortek_mag_corr_north, hc, hvm, Except.map, mulN_one]⟩

/-- Witness for `adapters_component_unit_factor` at latitude 45,
longitude -125. -/
theorem adapters_component_unit_factor_witness :
    nobska_mag_corr_east (fun _ _ _ _ => 0) (.scalar 3) (.scalar 4)
        (.scalar (some 45)) (.scalar (some (-125))) 0 0
      = Except.map (fun r => mulN r.1 (1 / 100))
          (vel_mag_correction (fun _ _ _ _ => 0) (.scalar 3) (.scalar 4)
            (.scalar (some 45)) (.scalar (some (-125))) 0 0) :=
  (adapters_component_unit_factor (fun _ _ _ _ => 0) (.scalar 3) (.scalar 4)
    (.scalar (some 45)) (.scalar (some (-125))) 0 0 (by decide) (by decide)).1

theorem magnetic_correction_scale (theta c a b : ℝ) :
    magnetic_correction theta (c * a) (c * b)
      = (c * (magnetic_correction theta a b).1, c * (magnetic_correction theta a b).2) := by
  simp only [magnetic_correction, Prod.mk.injEq]
  constructor <;> ring

theorem zipWith_map_both {α β : Type} (f : α → α → β) (g : α → α) (as bs : List α) :
    List.zipWith f (as.map g) (bs.map g) = List.zipWith (fun a b => f (g a) (g b)) as bs := by
  induction as generalizing bs with
  | nil => simp
  | cons a as ih => cases bs <;> simp [ih]

theorem map_zipWith_fuse {α β : Type} (g : β → β) (f : α → α → β) (as bs : List α) :
    (List.zipWith f as bs).map g = List.zipWith (fun a b => g (f a b)) as bs := by
  induction as generalizing bs with
  | nil => simp
  | cons a as ih => cases bs <;> simp [ih]

/-- C5: `vel_mag_correction` performs no validation of latitude or longitude
(for every position, valid or not, it returns an `ok` pair and never the
fill value), the output components are shaped like the input velocity, and
it applies no unit conversion: scaling both inputs by any factor `c` scales
both outputs by `c`, so outputs share the input velocity's unit. -/
theorem vel_mag_correction_shape_no_validation (p : Provider) (u v : NArr)
    (lat lon : Coord) (ts z zflag : ℝ) (h : shape u = shape v) :
    ∃ uc vc, vel_mag_correction p u v lat lon ts z zflag = .ok (uc, vc)
      ∧ shape uc = shape u ∧ shape vc = shape u
      ∧ ∀ c : ℝ, vel_mag_correction p (scaleN c u) (scaleN c v) lat lon ts z zflag
          = .ok (scaleN c uc, scaleN c vc) := by
  cases u with
  | scalar a =>
    cases v with
    | scalar b =>
      refine ⟨.scalar (magnetic_correction (magnetic_declination p lat lon ts z zflag) a b).1,
        .scalar (magnetic_correction (magnetic_declination p lat lon ts z zflag) a b).2,
        rfl, rfl, rfl, fun c => ?hs1⟩
      simp only [vel_mag_correction, scaleN, nmap, magvar,
        magnetic_correction_scale]
    | array bs => simp [shape] at h
  | array as =>
    cases v with
    | scalar b => simp [shape] at h
    | array bs =>
      simp only [shape, Option.some.injEq] at h
      refine ⟨.array (List.zipWith
          (fun a b => (magnetic_correction (magnetic_declination p lat lon ts z zflag) a b).1) as bs),
        .array (List.zipWith
          (fun a b => (magnetic_correction (magnetic_declination p lat lon ts z zflag) a b).2) as bs),
        ?hok, ?shu, ?shv, fun c => ?hs2⟩
      · simp [vel_mag_correction, magvar, h]
      · simp [shape, List.length_zipWith, h]
      · simp [shape, List.length_zipWith, h]
      · simp only [vel_mag_correction, scaleN, nmap, magvar, List.length_map, h,
          if_true, zipWith_map_both, map_zipWith_fuse, magnetic_correction_scale]

/-- Witness for `vel_mag_correction_shape_no_validation` at an out-of-range
latitude (95), showing in particular that no validation happens there. -/
theorem vel_mag_correction_shape_no_validation_witness :
    ∃ uc vc, vel_mag_correction (fun _ _ _ _ => 0) (.array [3, 4]) (.array [5, 6])
        (.scalar (some 95)) (.scalar (some 0)) 0 0 (-1) = .ok (uc, vc)
      ∧ shape uc = shape (.array [3, 4]) ∧ shape vc = shape (.array [3, 4])
      ∧ ∀ c : ℝ, vel_mag_correction (fun _ _ _ _ => 0)
            (scaleN c (.array [3, 4])) (scaleN c (.array [5, 6]))
            (.scalar (some 95)) (.scalar (some 0)) 0 0 (-1)
          = .ok (scaleN c uc, scaleN c vc) :=
  vel_mag_correction_shape_no_validation (fun _ _ _ _ => 0) (.array [3, 4]) (.array [5, 6])
    (.scalar (some 95)) (.scalar (some 0)) 0 0 (-1) rfl

/-- C4: `vel_mag_correction` requests the declination at the effective
signed vertical coordinate `zflag * z`; with `z = 10` and `zflag = -1` the
provider is consulted at `-10`, with `zflag = +1` at `+10` (its output
depends on the provider only through that point), and the default `zflag`
is `-1` (depth). -/
theorem vel_mag_correction_zflag_sign (u v : NArr) (lat lon : Coord) (ts z zflag : ℝ) :
    (∀ p : Provider, magnetic_declination p lat lon ts z zflag = p lat lon (zflag * z) ts)
    ∧ (∀ p1 p2 : Provider, p1 lat lon (-10) ts = p2 lat lon (-10) ts →
        vel_mag_correction p1 u v lat lon ts 10 (-1)
          = vel_mag_correction p2 u v lat lon ts 10 (-1))
    ∧ (∀ p1 p2 : Provider, p1 lat lon 10 ts = p2 lat lon 10 ts →
        vel_mag_correction p1 u v lat lon ts 10 1
          = vel_mag_correction p2 u v lat lon ts 10 1)
    ∧ (∀ p : Provider, vel_mag_correction p u v lat lon ts z
        = vel_mag_correction p u v lat lon ts z (-1)) := by
  refine ⟨fun p => rfl, fun p1 p2 hp => ?hd, fun p1 p2 hp => ?hh, fun p => rfl⟩
  · have hθ : magnetic_declination p1 lat lon ts 10 (-1)
        = magnetic_declination p2 lat lon ts 10 (-1) := by
      simp only [magnetic_declination]
      norm_num
      exact hp
    simp only [vel_mag_correction, hθ]
  · have hθ : magnetic_declination p1 lat lon ts 10 1
        = magnetic_declination p2 lat lon ts 10 1 := by
      simp only [magnetic_declination]
      norm_num
      exact hp
    simp only [vel_mag_correction, hθ]

/-- Witness for `vel_mag_correction_zflag_sign`: two providers agreeing at
vertical coordinate `-10` give identical output at `z = 10`,
`zflag = -1`. -/
theorem vel_mag_correction_zflag_sign_witness :
    vel_mag_correction (fun _ _ zz _ => zz) (.scalar 1) (.scalar 2)
        (.scalar (some 45)) (.scalar (some (-125))) 0 10 (-1)
      = vel_mag_correction (fun _ _ _ _ => -10) (.scalar 1) (.scalar 2)
        (.scalar (some 45)) (.scalar (some (-125))) 0 10 (-1) :=
  (vel_mag_correction_zflag_sign (.scalar 1) (.scalar 2)
    (.scalar (some 45)) (.scalar (some (-125))) 0 0 0).2.1
    (fun _ _ zz _ => zz) (fun _ _ _ _ => -10) rfl

/-- C6: the rotation corrector applied per element by `vel_mag_correction`
is a true rotation: it preserves the Euclidean magnitude of `(u, v)` for
every angle theta, and at theta = 0 it is the identity. -/
theorem magnetic_correction_isometry (theta u v : ℝ) :
    (magnetic_correction theta u v).1 ^ 2 + (magnetic_correction theta u v).2 ^ 2
        = u ^ 2 + v ^ 2
    ∧ Real.sqrt ((magnetic_correction theta u v).1 ^ 2 + (magnetic_correction theta u v).2 ^ 2)
        = Real.sqrt (u ^ 2 + v ^ 2)
    ∧ magnetic_correction 0 u v = (u, v) := by
  have hsq : (magnetic_correction theta u v).1 ^ 2 + (magnetic_correction theta u v).2 ^ 2
      = u ^ 2 + v ^ 2 := by
    simp only [magnetic_correction]
    linear_combination (u ^ 2 + v ^ 2) * Real.sin_sq_add_cos_sq theta
  refine ⟨hsq, by rw [hsq], ?hz⟩
  simp [magnetic_correction]

/-- C7: every adapter is a pure, stateless function: re-invocation with
identical arguments yields identical output, and the output depends on the
declination provider only through its (deterministic) input-output
behavior. -/
theorem adapters_deterministic (p p1 p2 : Provider) (u v : NArr) (lat lon : Coord)
    (ts z : ℝ) :
    nobska_mag_corr_east p u v lat lon ts z = nobska_mag_corr_east p u v lat lon ts z
    ∧ nobska_mag_corr_north p u v lat lon ts z = nobska_mag_corr_north p u v lat lon ts z
    ∧ nortek_mag_corr_east p u v lat lon ts z = nortek_mag_corr_east p u v lat lon ts z
    ∧ nortek_mag_corr_north p u v lat lon ts z = nortek_mag_corr_north p u v lat lon ts z
    ∧ ((∀ la lo zz t, p1 la lo zz t = p2 la lo zz t) →
        nobska_mag_corr_east p1 u v lat lon ts z = nobska_mag_corr_east p2 u v lat lon ts z
        ∧ nobska_mag_corr_north p1 u v lat lon ts z = nobska_mag_corr_north p2 u v lat lon ts z
        ∧ nortek_mag_corr_east p1 u v lat lon ts z = nortek_mag_corr_east p2 u v lat lon ts z
        ∧ nortek_mag_corr_north p1 u v lat lon ts z = nortek_mag_corr_north p2 u v lat lon ts z) := by
  refine ⟨rfl, rfl, rfl, rfl, fun hp => ?he⟩
  have hp2 : p1 = p2 := by
    funext la lo zz t
    exact hp la lo zz t
  rw [hp2]
  exact ⟨rfl, rfl, rfl, rfl⟩

/-- Witness for `adapters_deterministic` with two syntactically distinct but
extensionally equal providers. -/
theorem adapters_deterministic_witness :
    nobska_mag_corr_east (fun _ _ zz _ => zz + 0) (.scalar 1) (.scalar 2)
        (.scalar (some 45)) (.scalar (some (-125))) 0 0
      = nobska_mag_corr_east (fun _ _ zz _ => zz) (.scalar 1) (.scalar 2)
        (.scalar (some 45)) (.scalar (some (-125))) 0 0 :=
  ((adapters_deterministic (fun _ _ _ _ => 0) (fun _ _ zz _ => zz + 0) (fun _ _ zz _ => zz)
    (.scalar 1) (.scalar 2) (.scalar (some 45)) (.scalar (some (-125))) 0 0).2.2.2.2
    (fun _ _ zz _ => add_zero zz)).1

/-- C10: no adapter exposes `zflag`; each one invokes `vel_mag_correction`
with the default `zflag = -1`, so the vertical offset `z` is always a depth:
every adapter's output depends on the provider only through its value at
signed vertical coordinate `-z`, and no height interpretation is
reachable. -/
theorem adapters_always_depth (p1 p2 : Provider) (u v : NArr) (lat lon : Coord)
    (ts z : ℝ) (h : p1 lat lon (-z) ts = p2 lat lon (-z) ts) :
    nobska_mag_corr_east p1 u v lat lon ts z = nobska_mag_corr_east p2 u v lat lon ts z
    ∧ nobska_mag_corr_north p1 u v lat lon ts z = nobska_mag_corr_north p2 u v lat lon ts z
    ∧ nortek_mag_corr_east p1 u v lat lon ts z = nortek_mag_corr_east p2 u v lat lon ts z
    ∧ nortek_mag_corr_north p1 u v lat lon ts z = nortek_mag_corr_north p2 u v lat lon ts z
    ∧ nobska_mag_corr_east p1 u v lat lon ts z
        = (if !valid_lat lat || !valid_lon lon then fillLike u
           else
             match vel_mag_correction p1 u v lat lon ts z (-1) with
             | .error e => .error e
             | .ok r => .ok (divN r.1 100)) := by
  have hθ : magnetic_declination p1 lat lon ts z (-1)
      = magnetic_declination p2 lat lon ts z (-1) := by
    simp only [magnetic_declination, neg_one_mul]
    exact h
  have hvm : vel_mag_correction p1 u v lat lon ts z
      = vel_mag_correction p2 u v lat lon ts z := by
    simp only [vel_mag_correction, hθ]
  refine ⟨?g1, ?g2, ?g3, ?g4, rfl⟩
  · simp only [nobska_mag_corr_east, hvm]
  · simp only [nobska_mag_corr_north, hvm]
  · simp only [nortek_mag_corr_east, hvm]
  · simp only [nortek_mag_corr_north, hvm]

/-- Witness for `adapters_always_depth`: two providers agreeing at depth
`-3`. -/
theorem adapters_always_depth_witness :
    nortek_mag_corr_east (fun _ _ zz _ => zz) (.scalar 1) (.scalar 2)
        (.scalar (some 45)) (.scalar (some (-125))) 0 3
      = nortek_mag_corr_east (fun _ _ _ _ => -3) (.scalar 1) (.scalar 2)
        (.scalar (some 45)) (.scalar (some (-125))) 0 3 :=
  (adapters_always_depth (fun _ _ zz _ => zz) (fun _ _ _ _ => -3) (.scalar 1) (.scalar 2)
    (.scalar (some 45)) (.scalar (some (-125))) 0 3 rfl).2.2.1
